import Mathlib

/-!
Shallow embedding of the progress-statistics engine of the goal-tracker
backend (`app/services/__init__.py`).

Modelling conventions:
- A Python `datetime` is an integer count of seconds (ℤ); all timestamps are
  in one timezone-awareness mode, so the reconciliation code at the top of
  `active_window` is the identity and is omitted.
- `timedelta(days=d)` is `d * 86400` seconds; `(a - b).days` is floor
  division of the second difference by 86400 (`Int.fdiv`, matching Python's
  flooring semantics for negative values).
- `datetime.date()` is the calendar-day number `Int.fdiv t 86400`.
- Python `Decimal` / `float` values are modelled as exact rationals (ℚ).
- Python `x or d` on an optional integer yields `d` when `x` is `None` or
  `0` (both falsy); `not goal.target` is true when the target is `None` or
  zero.
-/

/-- Seconds in a day; `timedelta(days=1)`. -/
def secondsPerDay : ℤ := 86400

/-- Python `timedelta.days` of a difference of `d` seconds: floor division. -/
def wholeDays (d : ℤ) : ℤ := Int.fdiv d secondsPerDay

/-- Python `datetime.date()`: the calendar day number of a timestamp. -/
def pyDate (t : ℤ) : ℤ := Int.fdiv t secondsPerDay

/-- Python `x or d` for an optional integer: `None` and `0` are falsy. -/
def orDefaultInt (x : Option ℤ) (d : ℤ) : ℤ :=
  match x with
  | none => d
  | some v => if v = 0 then d else v

/-- Python truthiness of `goal.target`: `not goal.target` holds for `None`
and for a zero `Decimal`. -/
def targetFalsy (t : Option ℚ) : Bool :=
  match t with
  | none => true
  | some v => v = 0

/-- One entry of the `milestones` list in `settings_json`: a JSON object
whose `threshold` and `label` keys may each be absent (`.get` defaults). -/
structure Milestone where
  threshold : Option ℚ
  label : Option String
deriving DecidableEq

/-- The `settings_json` column: the only key the engine reads is
`milestones`, which may be absent. -/
structure Settings where
  milestones : Option (List Milestone)
deriving DecidableEq

/-- The fields of the `Goal` model read by the services module. -/
structure Goal where
  goal_type : String
  timeframe_type : String
  target : Option ℚ
  start_at : ℤ
  end_at : Option ℤ
  rolling_days : Option ℤ
  unit : String
  settings_json : Option Settings
deriving DecidableEq

/-- The fields of the `Log` model read by the services module. -/
structure Log where
  date : ℤ
  value : ℚ
deriving DecidableEq

/-- `active_window(goal, now)`: the active window for a goal based on its
timeframe type. `now` is passed explicitly (the Python default
`datetime.utcnow()` is a caller concern). -/
def active_window (goal : Goal) (now : ℤ) : ℤ × ℤ :=
  if goal.timeframe_type = "fixed" then
    (goal.start_at, goal.end_at.getD now)
  else if goal.timeframe_type = "rolling" then
    let days := orDefaultInt goal.rolling_days 30
    (now - days * secondsPerDay, now)
  else if goal.timeframe_type = "recurring" then
    let cycle_days := orDefaultInt goal.rolling_days 7
    let cycles_passed := Int.fdiv (wholeDays (now - goal.start_at)) cycle_days
    let cycle_start := goal.start_at + cycles_passed * cycle_days * secondsPerDay
    let cycle_end := cycle_start + cycle_days * secondsPerDay
    (cycle_start, cycle_end)
  else
    (goal.start_at, now)

/-- `sum_in_window(goal, logs, window_start, window_end)`: running total over
the log list, adding the value of each log whose date lies in the closed
window. -/
def sum_in_window (goal : Goal) (logs : List Log)
    (window_start window_end : ℤ) : ℚ :=
  logs.foldl
    (fun total log =>
      if window_start ≤ log.date ∧ log.date ≤ window_end then
        total + log.value
      else total)
    0

/-- `progress_pct(goal, logs, window_start, window_end)`. The first guard is
Python's `goal.goal_type == "open" or not goal.target`; the `goal.target == 0`
branch is kept exactly as in the source (it is only reached when the target
is present, so `Option.getD 0` stands for the bare attribute access). -/
def progress_pct (goal : Goal) (logs : List Log)
    (window_start window_end : ℤ) : ℚ :=
  if goal.goal_type = "open" ∨ targetFalsy goal.target then 0
  else
    let achieved := sum_in_window goal logs window_start window_end
    if goal.target.getD 0 = 0 then
      if 0 < achieved then 100 else 0
    else
      min (achieved / goal.target.getD 0 * 100) 100

/-- `required_pace(goal, now, window_start, window_end)`. -/
def required_pace (goal : Goal) (now window_start window_end : ℤ) : ℚ :=
  if goal.goal_type = "open" ∨ targetFalsy goal.target then 0
  else
    let total_days := wholeDays (window_end - window_start)
    if total_days ≤ 0 then 0
    else
      let remaining_value := goal.target.getD 0
      let remaining_days := max 1 (wholeDays (window_end - now))
      remaining_value / (remaining_days : ℚ)

/-- `actual_pace(goal, logs, window_start, window_end)`. -/
def actual_pace (goal : Goal) (logs : List Log)
    (window_start window_end : ℤ) : ℚ :=
  let total_days := wholeDays (window_end - window_start)
  if total_days ≤ 0 then 0
  else
    let achieved := sum_in_window goal logs window_start window_end
    achieved / (total_days : ℚ)

/-- Membership test `current_date in logs_by_date`: some log falls on the
calendar date `d`. -/
def hasLogsOn (logs : List Log) (d : ℤ) : Bool :=
  logs.any (fun l => pyDate l.date == d)

/-- `any(log.value > 0 for log in logs_by_date[current_date])`: the bucket of
`d` holds the logs whose date component is `d`. -/
def hasActivityOn (logs : List Log) (d : ℤ) : Bool :=
  (logs.filter (fun l => pyDate l.date == d)).any (fun l => decide (0 < l.value))

/-- One iteration of the `while current_date <= end_date` loop of
`compute_streak`, acting on the pair `(temp_streak, best_streak)`. -/
def streakStep (logs : List Log) (acc : ℤ × ℤ) (d : ℤ) : ℤ × ℤ :=
  if hasLogsOn logs d then
    if hasActivityOn logs d then (acc.1 + 1, max acc.2 (acc.1 + 1))
    else (0, acc.2)
  else (0, acc.2)

/-- The ascending list of calendar dates `a, a+1, ..., b` (empty when
`b < a`), the iteration space of the streak loop. -/
def dateRange (a b : ℤ) : List ℤ :=
  (List.range (b - a + 1).toNat).map (fun i => a + i)

/-- The result record of `compute_streak`. -/
structure Streak where
  current : ℤ
  best : ℤ
deriving DecidableEq

/-- `compute_streak(goal, logs, window_start, window_end)`. Sorting the logs
by date only reorders each calendar-date bucket, which `hasActivityOn`'s
existential test does not observe, so the sort is omitted. -/
def compute_streak (goal : Goal) (logs : List Log)
    (window_start window_end : ℤ) : Streak :=
  if goal.goal_type ≠ "streak" then ⟨0, 0⟩
  else
    let start_date := pyDate window_start
    let end_date := pyDate window_end
    let r := (dateRange start_date end_date).foldl (streakStep logs) (0, 0)
    ⟨r.1, r.2⟩

/-- `milestones_reached(goal, progress_pct)`: walk the configured list in
order, keeping the label of each milestone whose threshold is reached;
`.get("threshold", 0)` and `.get("label", "")` supply the defaults. -/
def milestones_reached (goal : Goal) (p : ℚ) : List String :=
  match goal.settings_json with
  | none => []
  | some s =>
    match s.milestones with
    | none => []
    | some milestones =>
      milestones.foldl
        (fun reached m =>
          if m.threshold.getD 0 ≤ p then reached ++ [m.label.getD ""]
          else reached)
        []

/-- The `ProgressStats` schema as assembled by `calculate_progress_stats`. -/
structure ProgressStats where
  progress_pct : ℚ
  achieved : Bool
  achieved_value : ℚ
  target : ℚ
  unit : String
  required_pace : ℚ
  actual_pace : ℚ
  streak : Streak
deriving DecidableEq

/-- `calculate_progress_stats(goal, logs, now)`: resolve the window once and
compute every statistic against it. `now` is passed explicitly. -/
def calculate_progress_stats (goal : Goal) (logs : List Log) (now : ℤ) :
    ProgressStats :=
  let w := active_window goal now
  let achieved_value := sum_in_window goal logs w.1 w.2
  let progress_pct_val := progress_pct goal logs w.1 w.2
  let required_pace_val := required_pace goal now w.1 w.2
  let actual_pace_val := actual_pace goal logs w.1 w.2
  let streak_data := compute_streak goal logs w.1 w.2
  { progress_pct := progress_pct_val
    achieved := decide (100 ≤ progress_pct_val)
    achieved_value := achieved_value
    target := goal.target.getD 0
    unit := goal.unit
    required_pace := required_pace_val
    actual_pace := actual_pace_val
    streak := streak_data }

/-- The activity predicate of the spec's streak description: a calendar date
is active iff at least one log on that date has a positive value. -/
def activeDate (logs : List Log) (d : ℤ) : Bool :=
  logs.any (fun l => pyDate l.date == d && decide (0 < l.value))

/-- One day of the streak recursion stated directly from the activity
predicate: increment on an active date, reset to zero otherwise. -/
def refStep (logs : List Log) (acc : ℤ × ℤ) (d : ℤ) : ℤ × ℤ :=
  if activeDate logs d then (acc.1 + 1, max acc.2 (acc.1 + 1)) else (0, acc.2)

/-! Concrete fixtures used by counterexamples and witnesses. -/

/-- A non-open goal whose target is the decimal zero. -/
def gTargetZero : Goal := ⟨"count", "fixed", some 0, 0, some 86400, none, "km", none⟩

/-- A positive-value log inside `gTargetZero`'s window. -/
def lTargetZero : Log := ⟨3600, 5⟩

/-- A recurring goal anchored at time 0 with the default 7-day cycle. -/
def gRecurring : Goal := ⟨"sum", "recurring", some 10, 0, none, none, "u", none⟩

/-- A non-open fixed goal with target 100 over a one-day window. -/
def gSumFix : Goal := ⟨"sum", "fixed", some 100, 0, some 86400, none, "u", none⟩

/-- A log contributing exactly 100 inside `gSumFix`'s window. -/
def lHundred : Log := ⟨3600, 100⟩

/-- An open goal that nevertheless has the positive target 100. -/
def gOpenTarget : Goal := ⟨"open", "fixed", some 100, 0, some 86400, none, "u", none⟩

/-- A streak goal over the five calendar days 0..4. -/
def gStreak : Goal := ⟨"streak", "fixed", none, 0, some (4 * 86400), none, "d", none⟩

/-- Positive-value logs on days 1, 2, 4 and 5 of the window (day 3 empty). -/
def logs5 : List Log := [⟨10, 1⟩, ⟨86410, 1⟩, ⟨3 * 86400 + 10, 1⟩, ⟨4 * 86400 + 10, 2⟩]

/-- A goal whose timeframe type is none of fixed, rolling or recurring. -/
def gUnknownTf : Goal := ⟨"count", "weekly", some 10, 500, none, none, "u", none⟩

/-- Three milestones at thresholds 0, 50 and 100. -/
def msThree : List Milestone :=
  [⟨some 0, some "start"⟩, ⟨some 50, some "half"⟩, ⟨some 100, some "done"⟩]

/-- A goal configured with the milestones `msThree`. -/
def gMilestones : Goal :=
  ⟨"sum", "fixed", some 100, 0, some 86400, none, "u", some ⟨some msThree⟩⟩

/-- Three logs, one of them outside the window `[0, 86400]`. -/
def logsPermA : List Log := [⟨10, 1⟩, ⟨99999, 2⟩, ⟨50, 3⟩]

/-- The same three logs in another order. -/
def logsPermB : List Log := [⟨50, 3⟩, ⟨10, 1⟩, ⟨99999, 2⟩]

/-! Helper lemmas. -/

/-- Unfolding the aggregation fold: a running total is the initial value plus
the sum of the in-window log values. -/
theorem sum_in_window_foldl (window_start window_end : ℤ) (logs : List Log)
    (init : ℚ) :
    logs.foldl
        (fun total log =>
          if window_start ≤ log.date ∧ log.date ≤ window_end then
            total + log.value
          else total)
        init
      = init
        + ((logs.filter
              (fun l => decide (window_start ≤ l.date ∧ l.date ≤ window_end))).map
            Log.value).sum := by
  induction logs generalizing init with
  | nil => simp
  | cons l rest ih =>
    by_cases h : window_start ≤ l.date ∧ l.date ≤ window_end
    · simp [h, ih]; ring
    · simp [h, ih]

/-- `sum_in_window` is the sum of the values of the logs inside the closed
window. -/
theorem sum_in_window_eq (goal : Goal) (logs : List Log)
    (window_start window_end : ℤ) :
    sum_in_window goal logs window_start window_end
      = ((logs.filter
            (fun l => decide (window_start ≤ l.date ∧ l.date ≤ window_end))).map
          Log.value).sum := by
  have h := sum_in_window_foldl window_start window_end logs 0
  simpa [sum_in_window] using h

/-- C1: the claim says a non-open goal with target 0 yields progress 100 on
positive in-window activity; the code's truthiness guard `not goal.target`
also fires for a zero target, so `progress_pct` returns 0 there and the
explicit `goal.target == 0` branch is unreachable. This theorem records the
divergence at a concrete failing input. -/
theorem C1_target_zero_dead_branch :
    sum_in_window gTargetZero [lTargetZero] 0 86400 = 5 ∧
    progress_pct gTargetZero [lTargetZero] 0 86400 = 0 ∧
    progress_pct gTargetZero [lTargetZero] 0 86400 ≠ 100 := by
  refine ⟨?_, ?_, ?_⟩ <;>
    norm_num [sum_in_window, progress_pct, targetFalsy, gTargetZero, lTargetZero]

/-- C7: for an open goal, or a goal with no target configured, both
`progress_pct` and `required_pace` return 0, whatever the logs, window and
reference time are. -/
theorem C7_open_or_no_target_zero (goal : Goal) (logs : List Log)
    (now window_start window_end : ℤ)
    (h : goal.goal_type = "open" ∨ goal.target = none) :
    progress_pct goal logs window_start window_end = 0 ∧
    required_pace goal now window_start window_end = 0 := by
  rcases h with h | h
  · constructor <;> simp [progress_pct, required_pace, h]
  · constructor <;> simp [progress_pct, required_pace, targetFalsy, h]

/-- C7 witness: an open goal with a positive in-window log still reports zero
progress and zero required pace. -/
theorem C7_open_or_no_target_zero_witness :
    (gOpenTarget.goal_type = "open" ∨ gOpenTarget.target = none) ∧
    (progress_pct gOpenTarget [lHundred] 0 86400 = 0 ∧
      required_pace gOpenTarget 3600 0 86400 = 0) :=
  ⟨Or.inl rfl, C7_open_or_no_target_zero gOpenTarget [lHundred] 3600 0 86400 (Or.inl rfl)⟩

/-- C8: for a timeframe type that is none of fixed, rolling or recurring,
`active_window` raises nothing and returns the silent fallback
`(goal.start_at, now)`. -/
theorem C8_unknown_timeframe_fallback (goal : Goal) (now : ℤ)
    (h1 : goal.timeframe_type ≠ "fixed")
    (h2 : goal.timeframe_type ≠ "rolling")
    (h3 : goal.timeframe_type ≠ "recurring") :
    active_window goal now = (goal.start_at, now) := by
  simp [active_window, h1, h2, h3]

/-- C8 witness: a goal with timeframe type "weekly" falls back to the window
from its start to now. -/
theorem C8_unknown_timeframe_fallback_witness :
    gUnknownTf.timeframe_type ≠ "fixed" ∧
    gUnknownTf.timeframe_type ≠ "rolling" ∧
    gUnknownTf.timeframe_type ≠ "recurring" ∧
    active_window gUnknownTf 7777 = (gUnknownTf.start_at, 7777) :=
  ⟨by decide, by decide, by decide,
    C8_unknown_timeframe_fallback gUnknownTf 7777 (by decide) (by decide) (by decide)⟩

/-- C10: `calculate_progress_stats` never reads `settings_json`, so two goals
that differ only in their milestone configuration produce identical
`ProgressStats` records, for every log collection and explicit now. -/
theorem C10_milestones_no_influence (goal : Goal) (s1 s2 : Option Settings)
    (logs : List Log) (now : ℤ) :
    calculate_progress_stats { goal with settings_json := s1 } logs now
      = calculate_progress_stats { goal with settings_json := s2 } logs now := rfl

/-- Bounds of the recurring-cycle computation: flooring a second offset to
whole days and then to whole cycles of `c` days lands at most `x` and misses
`x` by less than one cycle. -/
theorem cycle_bounds (x c : ℤ) (hc : 0 < c) :
    Int.fdiv (Int.fdiv x 86400) c * c * 86400 ≤ x ∧
    x < Int.fdiv (Int.fdiv x 86400) c * c * 86400 + c * 86400 := by
  have h86 : (0:ℤ) < 86400 := by norm_num
  rw [Int.fdiv_eq_ediv x (by norm_num : (0:ℤ) ≤ 86400)]
  rw [Int.fdiv_eq_ediv (x / 86400) hc.le]
  set d : ℤ := x / 86400 with hd
  set q : ℤ := d / c with hq
  have k1 : 86400 * d ≤ x := by
    have h1 := Int.ediv_add_emod x 86400
    have h2 := Int.emod_nonneg x (by norm_num : (86400:ℤ) ≠ 0)
    linarith
  have k2 : x < 86400 * d + 86400 := by
    have h1 := Int.ediv_add_emod x 86400
    have h2 := Int.emod_lt_of_pos x h86
    linarith
  have k3 : c * q ≤ d := by
    have h1 := Int.ediv_add_emod d c
    have h2 := Int.emod_nonneg d hc.ne'
    linarith
  have k4 : d < c * q + c := by
    have h1 := Int.ediv_add_emod d c
    have h2 := Int.emod_lt_of_pos d hc
    linarith
  constructor
  · have h5 : q * c * 86400 ≤ d * 86400 :=
      mul_le_mul_of_nonneg_right (by linarith) (by norm_num)
    linarith
  · have h6 : (d + 1) * 86400 ≤ (c * q + c) * 86400 :=
      mul_le_mul_of_nonneg_right (by linarith) (by norm_num)
    nlinarith

/-- C2: for a recurring goal with a positive (or defaulted) cycle length and
`start_at ≤ now`, `active_window` returns the cycle
`[start_at + cyclesPassed*cycleDays, +cycleDays)` and that cycle always
contains `now`, no matter how far in the past `start_at` lies. -/
theorem C2_recurring_contains_now (goal : Goal) (now : ℤ)
    (htf : goal.timeframe_type = "recurring")
    (hrd : ∀ d, goal.rolling_days = some d → 0 < d)
    (_hnow : goal.start_at ≤ now) :
    (active_window goal now).1
        = goal.start_at
          + Int.fdiv (wholeDays (now - goal.start_at)) (orDefaultInt goal.rolling_days 7)
            * orDefaultInt goal.rolling_days 7 * secondsPerDay ∧
    (active_window goal now).2
        = (active_window goal now).1 + orDefaultInt goal.rolling_days 7 * secondsPerDay ∧
    (active_window goal now).1 ≤ now ∧ now < (active_window goal now).2 := by
  have hc : 0 < orDefaultInt goal.rolling_days 7 := by
    cases hx : goal.rolling_days with
    | none => norm_num [orDefaultInt]
    | some v =>
      have hv := hrd v hx
      simpa [orDefaultInt, hv.ne'] using hv
  have hw : active_window goal now
      = (goal.start_at
           + Int.fdiv (wholeDays (now - goal.start_at)) (orDefaultInt goal.rolling_days 7)
             * orDefaultInt goal.rolling_days 7 * secondsPerDay,
         goal.start_at
           + Int.fdiv (wholeDays (now - goal.start_at)) (orDefaultInt goal.rolling_days 7)
             * orDefaultInt goal.rolling_days 7 * secondsPerDay
           + orDefaultInt goal.rolling_days 7 * secondsPerDay) := by
    simp [active_window, htf]
  have hb := cycle_bounds (now - goal.start_at) (orDefaultInt goal.rolling_days 7) hc
  rw [hw]
  refine ⟨rfl, rfl, ?_, ?_⟩
  · simp only [wholeDays, secondsPerDay]
    linarith [hb.1]
  · simp only [wholeDays, secondsPerDay]
    linarith [hb.2]

/-- C2 witness: a recurring goal anchored at 0 with the default 7-day cycle,
observed 20 days plus 5000 seconds in, is assigned the third cycle, which
contains the observation time. -/
theorem C2_recurring_contains_now_witness :
    (active_window gRecurring 1733000).1 ≤ 1733000 ∧
    1733000 < (active_window gRecurring 1733000).2 :=
  (C2_recurring_contains_now gRecurring 1733000 rfl
      (by intro d hd; simp [gRecurring] at hd) (by decide)).2.2

/-- C3: for a non-open goal with a present positive target, `required_pace`
divides the full target (not the remaining deficit) by
`max 1 (wholeDays (window_end - now))` whenever the window spans a positive
number of whole days, and returns 0 when the span is not positive. -/
theorem C3_required_pace_full_target (goal : Goal)
    (now window_start window_end : ℤ) (t : ℚ)
    (hopen : goal.goal_type ≠ "open") (ht : goal.target = some t)
    (htpos : 0 < t) :
    (0 < wholeDays (window_end - window_start) →
      required_pace goal now window_start window_end
        = t / ((max 1 (wholeDays (window_end - now)) : ℤ) : ℚ)) ∧
    (wholeDays (window_end - window_start) ≤ 0 →
      required_pace goal now window_start window_end = 0) := by
  constructor
  · intro hpos
    have hne : ¬ wholeDays (window_end - window_start) ≤ 0 := not_le.mpr hpos
    simp [required_pace, hopen, ht, targetFalsy, htpos.ne', hne]
  · intro hle
    simp [required_pace, hopen, ht, targetFalsy, htpos.ne', hle]

/-- C3 witness: a fixed one-day window with target 100, observed one hour in,
requires the full 100 per remaining day (the divisor is clamped to 1). -/
theorem C3_required_pace_full_target_witness :
    required_pace gSumFix 3600 0 86400
      = 100 / ((max 1 (wholeDays (86400 - 3600)) : ℤ) : ℚ) :=
  (C3_required_pace_full_target gSumFix 3600 0 86400 100 (by decide) rfl
      (by norm_num)).1 (by decide)

/-- The bucket-then-test of the source (`any` over the logs filed under a
date) agrees with the direct activity predicate of the spec. -/
theorem hasActivityOn_eq_activeDate (logs : List Log) (d : ℤ) :
    hasActivityOn logs d = activeDate logs d := by
  simp [hasActivityOn, activeDate, List.any_filter]

/-- One loop iteration of `compute_streak` collapses to the single-predicate
step: a date with no logs at all resets the counter exactly like a date with
only zero-value logs. -/
theorem streakStep_eq_refStep (logs : List Log) (acc : ℤ × ℤ) (d : ℤ) :
    streakStep logs acc d = refStep logs acc d := by
  by_cases hl : hasLogsOn logs d = true
  · simp [streakStep, refStep, hl, hasActivityOn_eq_activeDate]
  · have hl' : hasLogsOn logs d = false := by
      cases h : hasLogsOn logs d
      · rfl
      · exact absurd h hl
    have had : activeDate logs d = false := by
      simp only [hasLogsOn, List.any_eq_false] at hl'
      simp only [activeDate, List.any_eq_false]
      intro l hm
      simp [hl' l hm]
    simp [streakStep, refStep, hl', had]

/-- C4: for a streak goal, `compute_streak` walks the calendar dates from
`window_start.date()` to `window_end.date()` inclusive in ascending order,
counting a date as active iff some log on it has positive value (a logless
date resets like a zero-value date), with `best` the maximum running counter
and `current` its final value; on a five-day window with positive logs on
days 1, 2, 4 and 5 it yields best = 2 and current = 2. -/
theorem C4_compute_streak_days (goal : Goal) (logs : List Log)
    (window_start window_end : ℤ) (h : goal.goal_type = "streak") :
    ((compute_streak goal logs window_start window_end).current
        = ((dateRange (pyDate window_start) (pyDate window_end)).foldl
            (refStep logs) (0, 0)).1 ∧
      (compute_streak goal logs window_start window_end).best
        = ((dateRange (pyDate window_start) (pyDate window_end)).foldl
            (refStep logs) (0, 0)).2) ∧
    compute_streak gStreak logs5 0 (4 * 86400) = ⟨2, 2⟩ := by
  have hfold : (dateRange (pyDate window_start) (pyDate window_end)).foldl
        (streakStep logs) (0, 0)
      = (dateRange (pyDate window_start) (pyDate window_end)).foldl
        (refStep logs) (0, 0) :=
    List.foldl_ext _ _ _ (fun a b _ => streakStep_eq_refStep logs a b)
  have hcs : compute_streak goal logs window_start window_end
      = ⟨((dateRange (pyDate window_start) (pyDate window_end)).foldl
            (streakStep logs) (0, 0)).1,
         ((dateRange (pyDate window_start) (pyDate window_end)).foldl
            (streakStep logs) (0, 0)).2⟩ := by
    simp [compute_streak, h]
  refine ⟨⟨?_, ?_⟩, by decide⟩
  · rw [hcs]; exact congrArg Prod.fst hfold
  · rw [hcs]; exact congrArg Prod.snd hfold

/-- C4 witness: the five-day scenario instantiates the general statement and
the concrete streak values are best = 2, current = 2. -/
theorem C4_compute_streak_days_witness :
    gStreak.goal_type = "streak" ∧
    (((compute_streak gStreak logs5 0 (4 * 86400)).current
        = ((dateRange (pyDate 0) (pyDate (4 * 86400))).foldl
            (refStep logs5) (0, 0)).1 ∧
      (compute_streak gStreak logs5 0 (4 * 86400)).best
        = ((dateRange (pyDate 0) (pyDate (4 * 86400))).foldl
            (refStep logs5) (0, 0)).2) ∧
    compute_streak gStreak logs5 0 (4 * 86400) = ⟨2, 2⟩) :=
  ⟨rfl, C4_compute_streak_days gStreak logs5 0 (4 * 86400) rfl⟩

/-- C6: `sum_in_window` is exactly the sum of the values of the logs whose
date satisfies `window_start ≤ date ≤ window_end` (both bounds inclusive),
it returns 0 on the empty collection, and it is invariant under permutation
of the log collection. -/
theorem C6_sum_in_window_props (goal : Goal) (logs logs2 : List Log)
    (window_start window_end : ℤ) (hperm : logs.Perm logs2) :
    sum_in_window goal logs window_start window_end
      = ((logs.filter
            (fun l => decide (window_start ≤ l.date ∧ l.date ≤ window_end))).map
          Log.value).sum ∧
    sum_in_window goal [] window_start window_end = 0 ∧
    sum_in_window goal logs window_start window_end
      = sum_in_window goal logs2 window_start window_end := by
  refine ⟨sum_in_window_eq goal logs window_start window_end,
    by simp [sum_in_window], ?_⟩
  rw [sum_in_window_eq, sum_in_window_eq]
  exact ((hperm.filter _).map Log.value).sum_eq

/-- C6 witness: a concrete three-log collection and a permutation of it give
the same in-window total (the log at 99999 is outside the window). -/
theorem C6_sum_in_window_props_witness :
    logsPermA.Perm logsPermB ∧
    (sum_in_window gSumFix logsPermA 0 86400
        = ((logsPermA.filter
              (fun l => decide ((0:ℤ) ≤ l.date ∧ l.date ≤ 86400))).map
            Log.value).sum ∧
      sum_in_window gSumFix [] 0 86400 = 0 ∧
      sum_in_window gSumFix logsPermA 0 86400
        = sum_in_window gSumFix logsPermB 0 86400) :=
  ⟨by decide, C6_sum_in_window_props gSumFix logsPermA logsPermB 0 86400 (by decide)⟩

/-- C5 counterexample: the claim quantifies over every goal with a positive
target, but an open goal with target 100 and logs summing to 100 in-window
reports progress 0, not the clamped ratio 100. -/
theorem C5_counterexample_open_goal :
    progress_pct gOpenTarget [lHundred] 0 86400
      ≠ min 100 (sum_in_window gOpenTarget [lHundred] 0 86400 / 100 * 100) := by
  norm_num [progress_pct, sum_in_window, gOpenTarget, lHundred]

/-- C5 amended: for every non-open goal with a positive target,
`progress_pct` is the ratio clamped at 100; in the assembled stats, logs
summing exactly to the target give progress 100 and `achieved = true`, and
logs summing to more than the target still give 100, never more. -/
theorem C5_progress_clamped (goal : Goal) (logs : List Log)
    (window_start window_end now : ℤ) (t : ℚ)
    (hopen : goal.goal_type ≠ "open") (ht : goal.target = some t)
    (htpos : 0 < t) :
    progress_pct goal logs window_start window_end
      = min 100 (sum_in_window goal logs window_start window_end / t * 100) ∧
    (sum_in_window goal logs (active_window goal now).1 (active_window goal now).2 = t →
      (calculate_progress_stats goal logs now).progress_pct = 100 ∧
      (calculate_progress_stats goal logs now).achieved = true) ∧
    (t < sum_in_window goal logs (active_window goal now).1 (active_window goal now).2 →
      (calculate_progress_stats goal logs now).progress_pct = 100) := by
  have hmain : ∀ ws we : ℤ, progress_pct goal logs ws we
      = min 100 (sum_in_window goal logs ws we / t * 100) := by
    intro ws we
    simp [progress_pct, hopen, ht, targetFalsy, htpos.ne']
    exact min_comm _ _
  have hstats : (calculate_progress_stats goal logs now).progress_pct
      = progress_pct goal logs (active_window goal now).1 (active_window goal now).2 := rfl
  refine ⟨hmain window_start window_end, ?_, ?_⟩
  · intro hsum
    have h100 : (calculate_progress_stats goal logs now).progress_pct = 100 := by
      rw [hstats, hmain, hsum, div_self htpos.ne']
      norm_num
    refine ⟨h100, ?_⟩
    have hach : (calculate_progress_stats goal logs now).achieved
        = decide (100 ≤ (calculate_progress_stats goal logs now).progress_pct) := rfl
    rw [hach, h100]
    norm_num
  · intro hgt
    rw [hstats, hmain]
    have h1 : (1:ℚ) ≤ sum_in_window goal logs (active_window goal now).1
        (active_window goal now).2 / t := (one_le_div htpos).mpr hgt.le
    have h2 : (100:ℚ) ≤ sum_in_window goal logs (active_window goal now).1
        (active_window goal now).2 / t * 100 := by linarith
    exact min_eq_left h2

/-- C5 witness: a non-open fixed goal with target 100 and a single log of
value 100 inside the resolved window yields progress 100 and achieved. -/
theorem C5_progress_clamped_witness :
    (calculate_progress_stats gSumFix [lHundred] 90000).progress_pct = 100 ∧
    (calculate_progress_stats gSumFix [lHundred] 90000).achieved = true :=
  (C5_progress_clamped gSumFix [lHundred] 0 86400 90000 100 (by decide) rfl
      (by norm_num)).2.1
    (by norm_num [sum_in_window, active_window, gSumFix, lHundred])

/-- Unfolding the milestone fold: appending into the accumulator produces
the filtered labels in configured order, after the accumulator. -/
theorem milestones_foldl_eq (p : ℚ) (ms : List Milestone) (acc : List String) :
    ms.foldl
        (fun reached m =>
          if m.threshold.getD 0 ≤ p then reached ++ [m.label.getD ""]
          else reached)
        acc
      = acc
        ++ (ms.filter (fun m => decide (m.threshold.getD 0 ≤ p))).map
            (fun m => m.label.getD "") := by
  induction ms generalizing acc with
  | nil => simp
  | cons m rest ih =>
    by_cases h : m.threshold.getD 0 ≤ p <;> simp [h, ih]

/-- C9: with milestones configured, `milestones_reached` returns exactly the
labels of the milestones whose threshold is at most the progress percentage,
in the configured list order (unsorted, duplicates passed through), and a
milestone with threshold 0 is always included once the percentage is
non-negative. -/
theorem C9_milestones_in_order (goal : Goal) (s : Settings)
    (ms : List Milestone) (p : ℚ)
    (h1 : goal.settings_json = some s) (h2 : s.milestones = some ms) :
    milestones_reached goal p
      = (ms.filter (fun m => decide (m.threshold.getD 0 ≤ p))).map
          (fun m => m.label.getD "") ∧
    (0 ≤ p → ∀ m ∈ ms, m.threshold.getD 0 = 0 →
      m.label.getD "" ∈ milestones_reached goal p) := by
  have hmr : milestones_reached goal p
      = (ms.filter (fun m => decide (m.threshold.getD 0 ≤ p))).map
          (fun m => m.label.getD "") := by
    simp only [milestones_reached, h1, h2]
    simpa using milestones_foldl_eq p ms []
  refine ⟨hmr, ?_⟩
  intro hp m hm hth
  rw [hmr]
  exact List.mem_map.mpr
    ⟨m, List.mem_filter.mpr ⟨hm, by simp [hth, hp]⟩, rfl⟩

/-- C9 witness: thresholds 0, 50, 100 against progress 60 keep the first two
labels in order, and the threshold-0 milestone is a member. -/
theorem C9_milestones_in_order_witness :
    (milestones_reached gMilestones 60
        = (msThree.filter (fun m => decide (m.threshold.getD 0 ≤ 60))).map
            (fun m => m.label.getD "") ∧
      ((0:ℚ) ≤ 60 → ∀ m ∈ msThree, m.threshold.getD 0 = 0 →
        m.label.getD "" ∈ milestones_reached gMilestones 60)) :=
  C9_milestones_in_order gMilestones ⟨some msThree⟩ msThree 60 rfl rfl
